import Mathlib

/-!
Verification of the tinywgpu frame orchestrator against its specification.

The development shallowly embeds the TypeScript sources:
* `CanvasContext` (src/core/CanvasContext.ts) — surface resource manager;
* `PipelineManager` — pipeline cache keyed by string fingerprints;
* `Engine` — the frame orchestrator (`beginFrame`, `buildRenderStack`,
  `renderCamera`, `RenderLoop`).

GPU-side effects (buffer creation, uniform writes, draw encoding, queue
submission) are modelled as an explicit event trace; object identity of
GPU resources is modelled by minting fresh numeric ids from a device-held
counter.  JavaScript `number`s are modelled as `Rat` (the claims under
verification only involve exact arithmetic: subtraction, division by 1000,
multiplication and `Math.floor`).
-/

namespace TinyWgpu

/-! ## Surface resource manager: `CanvasContext` (src/core/CanvasContext.ts) -/

/-- The DOM canvas element a `CanvasContext` owns: backing-store pixel
dimensions (`canvas.width` / `canvas.height`, integers) and CSS displayed
size (`clientWidth` / `clientHeight`). -/
structure HTMLCanvas where
  width : Int
  height : Int
  clientWidth : Rat
  clientHeight : Rat
deriving Repr, DecidableEq

/-- The stored logical size field `private size : { width, height }`. -/
structure Size where
  width : Int
  height : Int
deriving Repr, DecidableEq

/-- State of one `CanvasContext`.  `configureCount` counts calls to the
private `configure()` method (which reconfigures the `GPUCanvasContext`),
and `resizeCount` counts calls to `resize(width, height)` — the code path
that changes the canvas backing-store dimensions and thereby reconfigures
the presentation chain's size.  The depth/multisample texture fields of the
source are commented out there and carry no behaviour. -/
structure CanvasContext where
  canvas : HTMLCanvas
  size : Size
  configureCount : Nat
  resizeCount : Nat
deriving Repr, DecidableEq

/-- `configure()`: reconfigures the `GPUCanvasContext` with the preferred
format, render-attachment usage and opaque alpha mode; the only state we
track is that the call happened. -/
def CanvasContext.configure (c : CanvasContext) : CanvasContext :=
  { c with configureCount := c.configureCount + 1 }

/-- The constructor: stores the canvas, initialises
`size = { width: canvas.width, height: canvas.height }` and calls
`configure()`. -/
def CanvasContext.create (canvas : HTMLCanvas) : CanvasContext :=
  CanvasContext.configure
    { canvas := canvas
      size := { width := canvas.width, height := canvas.height }
      configureCount := 0
      resizeCount := 0 }

/-- `resize(width, height)`: updates the stored size and the canvas
backing-store dimensions (`this.canvas.width = width` etc.). -/
def CanvasContext.resize (c : CanvasContext) (width height : Int) : CanvasContext :=
  { c with
      size := { width := width, height := height }
      canvas := { c.canvas with width := width, height := height }
      resizeCount := c.resizeCount + 1 }

/-- `updateSize()`: reads the CSS displayed size, multiplies by the device
pixel ratio, floors to integers and — only when the result differs from the
stored size — calls `resize`.  The device pixel ratio is an environment
input and is passed as a parameter (`window.devicePixelRatio || 1` in the
source guards an undefined `devicePixelRatio`, not a numeric value). -/
def CanvasContext.updateSize (c : CanvasContext) (pixelRatio : Rat) : CanvasContext :=
  let displayWidth := c.canvas.clientWidth
  let displayHeight := c.canvas.clientHeight
  let width := ⌊displayWidth * pixelRatio⌋
  let height := ⌊displayHeight * pixelRatio⌋
  if c.size.width = width ∧ c.size.height = height then
    c
  else
    c.resize width height

/-- A sequence of `updateSize` calls, each observing a (possibly different)
device pixel ratio. -/
def CanvasContext.updateSizes (c : CanvasContext) : List Rat → CanvasContext
  | [] => c
  | ρ :: ρs => (c.updateSize ρ).updateSizes ρs

/-- Specification-side count: the number of calls in a sequence of
`updateSize` calls whose computed effective size differs from the stored
size at the time of the call. -/
def CanvasContext.changedCalls (c : CanvasContext) : List Rat → Nat
  | [] => 0
  | ρ :: ρs =>
      (if c.size.width = ⌊c.canvas.clientWidth * ρ⌋ ∧
          c.size.height = ⌊c.canvas.clientHeight * ρ⌋ then 0 else 1) +
        (c.updateSize ρ).changedCalls ρs

/-! ## Pipeline cache: `PipelineManager` -/

/-- The pipeline descriptor produced by
`Engine._createRenderPipelineDescriptor(format)`.  The vertex/fragment
WGSL shader modules are constant strings in the source and are not
observed by any claim; the descriptor fields that vary or feed the cache
key are kept. -/
structure GPURenderPipelineDescriptor where
  format : String
  topology : String
  cullMode : String
deriving Repr, DecidableEq

/-- A compiled render pipeline.  `id` models JavaScript object identity:
each `device.createRenderPipeline` call mints a fresh id. -/
structure GPURenderPipeline where
  id : Nat
  format : String
deriving Repr, DecidableEq

/-- A GPU buffer; `id` models object identity, `size` is the byte size
requested at creation. -/
structure GPUBuffer where
  id : Nat
  size : Nat
deriving Repr, DecidableEq

/-- The GPU device, reduced to the fresh-id state used to model object
identity of created pipelines and buffers. -/
structure Device where
  nextPipelineId : Nat
  nextBufferId : Nat
deriving Repr, DecidableEq

/-- `device.createRenderPipeline(desc)`: compiles a pipeline; modelled as
minting a fresh pipeline object recording the descriptor's format. -/
def Device.createRenderPipeline (d : Device) (desc : GPURenderPipelineDescriptor) :
    GPURenderPipeline × Device :=
  ({ id := d.nextPipelineId, format := desc.format },
   { d with nextPipelineId := d.nextPipelineId + 1 })

/-- `device.createBuffer({size, usage})`: mints a fresh buffer of the
requested byte size. -/
def Device.createBuffer (d : Device) (size : Nat) : GPUBuffer × Device :=
  ({ id := d.nextBufferId, size := size },
   { d with nextBufferId := d.nextBufferId + 1 })

/-- The pipeline cache: `private pipelines: Map<string, GPURenderPipeline>`,
modelled as an association list where `set` prepends (shadowing older
entries, which matches `Map.set`'s lookup behaviour). -/
structure PipelineManager where
  pipelines : List (String × GPURenderPipeline)
deriving Repr, DecidableEq

/-- `get(key)`: non-creating lookup (`this.pipelines.get(key) || null`). -/
def PipelineManager.get (pm : PipelineManager) (key : String) :
    Option GPURenderPipeline :=
  pm.pipelines.lookup key

/-- Result of one `getOrCreate` call: the returned pipeline, the updated
cache and device, and the number of times the descriptor builder was
invoked during the call. -/
structure GetOrCreateResult where
  pipeline : GPURenderPipeline
  manager : PipelineManager
  device : Device
  builderCalls : Nat
deriving Repr, DecidableEq

/-- `getOrCreate(key, descriptor)`: returns the cached pipeline for `key`;
on a miss invokes `descriptor()` once, compiles the pipeline via the
device held by the manager, stores it under `key` and returns it. -/
def PipelineManager.getOrCreate (pm : PipelineManager) (dev : Device)
    (key : String) (descriptor : Unit → GPURenderPipelineDescriptor) :
    GetOrCreateResult :=
  match pm.get key with
  | some pipeline =>
      { pipeline := pipeline, manager := pm, device := dev, builderCalls := 0 }
  | none =>
      let desc := descriptor ()
      let (pipeline, dev) := dev.createRenderPipeline desc
      { pipeline := pipeline
        manager := { pipelines := (key, pipeline) :: pm.pipelines }
        device := dev
        builderCalls := 1 }

/-- `clear()`: removes all cached pipelines. -/
def PipelineManager.clear (_pm : PipelineManager) : PipelineManager :=
  { pipelines := [] }

/-- `remove(key)`: deletes one entry, returning whether it was present. -/
def PipelineManager.remove (pm : PipelineManager) (key : String) :
    PipelineManager × Bool :=
  ({ pipelines := pm.pipelines.filter (fun kv => kv.1 ≠ key) },
   (pm.get key).isSome)

/-! ## Scene data (src/core/types/Mesh.ts, ICamera.ts, RenderTarget.ts) -/

/-- A mesh: vertex buffer handle, optional index buffer handle, and the
index/vertex counts.  Buffer handles are numeric ids (the engine never
inspects their contents). -/
structure Mesh where
  vertexBuffer : Nat
  indexBuffer : Option Nat
  indexCount : Nat
  vertexCount : Nat
deriving Repr, DecidableEq

/-- A 4×4 matrix from gl-matrix, as its flat list of 16 entries.  No claim
inspects matrix arithmetic, only which matrices are written where. -/
abbrev Mat4 := List Rat

/-- A renderable: a model transform (`getTransform()`) and a mesh. -/
structure Renderable where
  transform : Mat4
  mesh : Mesh
deriving Repr, DecidableEq

/-- `RenderTarget`, the tagged union from src/core/types/RenderTarget.ts:
either a reference to a registered canvas by id, or an off-screen texture
with explicit dimensions. -/
inductive RenderTarget where
  | canvas (canvasId : String)
  | texture (texture : Nat) (width height : Int)
deriving Repr, DecidableEq

/-- A scene, reduced to its renderable list (the engine reads only
`camera.scene.renderables`). -/
structure Scene where
  renderables : List Renderable
deriving Repr, DecidableEq

/-- A camera (`ICamera`): its scene, render target, enabled flag, priority
order, and view/projection matrices.  `isPerspective` models the
`camera instanceof PerspectiveCamera` test. -/
structure Camera where
  scene : Scene
  target : RenderTarget
  enabled : Bool
  order : Int
  isPerspective : Bool
  viewMatrix : Mat4
  projectionMatrix : Mat4
deriving Repr, DecidableEq

/-- A texture of a presentation chain, as seen by the engine: its pixel
dimensions (`texture.width`, `texture.height`). -/
structure GPUTexture where
  width : Int
  height : Int
deriving Repr, DecidableEq

/-- `getCurrentTexture()`: the drawable image of the current frame, whose
dimensions are the configured size of the context. -/
def CanvasContext.getCurrentTexture (c : CanvasContext) : GPUTexture :=
  { width := c.size.width, height := c.size.height }

/-- Modelled from the spec: `CanvasManager` is not under src/ (only its
callers are).  Per §4.1 it exposes `lookup(id) → Handle | absent`, a map
from logical canvas ids to registered surface contexts; absence is the
recoverable condition. -/
structure CanvasManager where
  contexts : List (String × CanvasContext)
deriving Repr, DecidableEq

/-- `canvasManager.getContext(id)`: resolves a registered context by id. -/
def CanvasManager.getContext (cm : CanvasManager) (id : String) :
    Option CanvasContext :=
  cm.contexts.lookup id

/-- `navigator.gpu.getPreferredCanvasFormat()`: a platform constant. -/
def preferredCanvasFormat : String := "bgra8unorm"

/-! ## Frame orchestrator: `Engine` (src/unnamed/part_000) -/

/-- The observable GPU/diagnostic events one frame emits, in program
order.  `writeBuffer` records the target buffer id and the three matrices
placed in the uniform data (model at offset 0, view at 16 floats,
projection at 32 floats). -/
inductive GpuEvent where
  | warnCanvasNotFound (canvasId : String)
  | updateAspect (aspect : Rat)
  | createBuffer (id : Nat) (size : Nat)
  | beginRenderPass
  | setPipeline (id : Nat)
  | writeBuffer (id : Nat) (model view projection : Mat4)
  | setBindGroup (bufferId : Nat)
  | setVertexBuffer (buffer : Nat)
  | setIndexBuffer (buffer : Nat) (indexFormat : String)
  | draw (vertexCount : Nat)
  | drawIndexed (indexCount : Nat)
  | endPass
  | sceneUpdate (deltaTime : Rat)
  | submit
deriving Repr, DecidableEq

/-- The engine's mutable fields relevant to the claims: the device (id
minting), the canvas manager, the pipeline cache, the lazily created
shared uniform buffer (`_uniformBuffer`), and `_lastFrameTime`. -/
structure EngineState where
  device : Device
  canvasManager : CanvasManager
  pipelineManager : PipelineManager
  uniformBuffer : Option GPUBuffer
  lastFrameTime : Rat
deriving Repr, DecidableEq

/-- The `Engine` constructor: fresh managers, `_uniformBuffer = null`,
`_lastFrameTime = 0`.  Registered canvases are provided by the application
after construction; they are passed in here. -/
def Engine.create (dev : Device) (cm : CanvasManager) : EngineState :=
  { device := dev
    canvasManager := cm
    pipelineManager := { pipelines := [] }
    uniformBuffer := none
    lastFrameTime := 0 }

/-- The ephemeral `FrameContext` returned by `beginFrame` (the command
encoder is modelled by the event lists the frame functions return). -/
structure FrameContext where
  lastDeltaTime : Rat
deriving Repr, DecidableEq

/-- `beginFrame()`: computes the frame's delta time in seconds
(`0` when `_lastFrameTime === 0`, else `(now - _lastFrameTime) / 1000`),
stores `now` into `_lastFrameTime`, and opens a command encoder. -/
def Engine.beginFrame (now : Rat) (s : EngineState) :
    FrameContext × EngineState :=
  let deltaTime := if s.lastFrameTime = 0 then 0 else (now - s.lastFrameTime) / 1000
  ({ lastDeltaTime := deltaTime }, { s with lastFrameTime := now })

/-- `buildRenderStack()`: recomputes a delta time from the then-current
`_lastFrameTime` (which `beginFrame` has already overwritten with the
frame's own timestamp) and passes it to `sceneManager.update`.  Note it
does not use the `FrameContext.lastDeltaTime` computed by `beginFrame`. -/
def Engine.buildRenderStack (now : Rat) (s : EngineState) : List GpuEvent :=
  let deltaTime := if s.lastFrameTime = 0 then 0 else (now - s.lastFrameTime) / 1000
  [.sceneUpdate deltaTime]

/-- `_createRenderPipelineDescriptor(format)`: builds the fixed pipeline
descriptor for the given color format (triangle-list topology, back-face
culling; the WGSL modules are constants). -/
def Engine.createRenderPipelineDescriptor (format : String) :
    GPURenderPipelineDescriptor :=
  { format := format, topology := "triangle-list", cullMode := "back" }

/-- The per-renderable body of `renderCamera`'s loop: write the model,
view and projection matrices into the shared uniform buffer, bind it,
set the vertex buffer, and encode exactly one draw — indexed with
`uint16` indices when the mesh has an index buffer, otherwise a plain
draw over the vertex count.  (The source also computes an `mvp` product
via gl-matrix and never uses it; that dead computation is omitted.) -/
def Engine.encodeRenderable (uniformBufferId : Nat)
    (viewMatrix projectionMatrix : Mat4) (renderable : Renderable) :
    List GpuEvent :=
  let modelMatrix := renderable.transform
  let mesh := renderable.mesh
  [.writeBuffer uniformBufferId modelMatrix viewMatrix projectionMatrix,
   .setBindGroup uniformBufferId,
   .setVertexBuffer mesh.vertexBuffer] ++
    match mesh.indexBuffer with
    | some ib => [.setIndexBuffer ib "uint16", .drawIndexed mesh.indexCount]
    | none => [.draw mesh.vertexCount]

/-- The lazy creation of the shared uniform buffer inside `renderCamera`:
when `_uniformBuffer` is null it is created with byte size `16 * 4 * 3`
(three 4×4 float matrices: model, view, projection); otherwise the
existing buffer is reused.  Returns the buffer, the updated device and
the creation event (if any). -/
def Engine.allocUniform (dev : Device) :
    Option GPUBuffer → GPUBuffer × Device × List GpuEvent
  | some b => (b, dev, [])
  | none =>
      let bd := dev.createBuffer (16 * 4 * 3)
      (bd.1, bd.2, [.createBuffer bd.1.id bd.1.size])

/-- The tail of `renderCamera` once the target is resolved: pipeline
get-or-create for `` `basic_${format}` ``, lazy uniform-buffer creation,
then one render pass over the camera's renderables. -/
def Engine.renderCameraResolved (camera : Camera) (s : EngineState)
    (format : String) (resolveEvents : List GpuEvent) :
    EngineState × List GpuEvent :=
  let pipelineKey := "basic_" ++ format
  let r := s.pipelineManager.getOrCreate s.device pipelineKey
    (fun _ => Engine.createRenderPipelineDescriptor format)
  let alloc := Engine.allocUniform r.device s.uniformBuffer
  let passEvents :=
    [.beginRenderPass, .setPipeline r.pipeline.id] ++
      camera.scene.renderables.flatMap
        (Engine.encodeRenderable alloc.1.id camera.viewMatrix
          camera.projectionMatrix) ++
      [.endPass]
  ({ s with
      device := alloc.2.1
      pipelineManager := r.manager
      uniformBuffer := some alloc.1 },
   resolveEvents ++ alloc.2.2 ++ passEvents)

/-- `renderCamera(camera, commandEncoder)`: resolve the render target —
for a canvas target, look the context up by id (warn and return, skipping
the camera, when absent; update a perspective camera's aspect ratio from
the drawable's dimensions); for a texture target, use the caller-supplied
dimensions — then encode the camera's pass. -/
def Engine.renderCamera (camera : Camera) (s : EngineState) :
    EngineState × List GpuEvent :=
  match camera.target with
  | .canvas canvasId =>
      match s.canvasManager.getContext canvasId with
      | none => (s, [.warnCanvasNotFound canvasId])
      | some canvasContext =>
          let texture := canvasContext.getCurrentTexture
          let width := texture.width
          let height := texture.height
          let aspectEvents :=
            if camera.isPerspective then
              [GpuEvent.updateAspect ((width : Rat) / (height : Rat))]
            else []
          Engine.renderCameraResolved camera s preferredCanvasFormat aspectEvents
  | .texture _ _ _ =>
      Engine.renderCameraResolved camera s preferredCanvasFormat []

/-- The frame loop body over the camera sequence yielded by the scene
collaborator, threading the engine state and concatenating each camera's
events in the yielded order. -/
def Engine.renderCameras : List Camera → EngineState → EngineState × List GpuEvent
  | [], s => (s, [])
  | c :: cs, s =>
      let r := Engine.renderCamera c s
      let rs := Engine.renderCameras cs r.1
      (rs.1, r.2 ++ rs.2)

/-- The ascending-priority comparison on cameras (`order`: lower renders
first). -/
def cameraLE (a b : Camera) : Bool := a.order ≤ b.order

/-- Modelled from the spec: `SceneManager.getRenderCameras` is not under
src/ (only its caller is).  Per §4.4/§6 it yields the enabled cameras in
ascending priority order, ties broken by stable input order; modelled as
a stable merge sort by `order` of the enabled cameras. -/
def SceneManager.getRenderCameras (cameras : List Camera) : List Camera :=
  (cameras.filter (fun c => c.enabled)).mergeSort cameraLE

/-- `endFrame(frame)`: finishes the command encoder and submits it to the
device queue. -/
def Engine.endFrame : List GpuEvent := [.submit]

/-- `RenderLoop()`: begin the frame, advance the scene, render each camera
yielded by the scene collaborator in order, and submit.  `nowBegin` and
`nowUpdate` are the two `performance.now()` samples taken by `beginFrame`
and `buildRenderStack`.  Returns the final state, the frame's event trace,
and the `FrameContext` built by `beginFrame`. -/
def Engine.RenderLoop (cameras : List Camera) (nowBegin nowUpdate : Rat)
    (s : EngineState) : EngineState × List GpuEvent × FrameContext :=
  let fr := Engine.beginFrame nowBegin s
  let updateEvents := Engine.buildRenderStack nowUpdate fr.2
  let rs := Engine.renderCameras (SceneManager.getRenderCameras cameras) fr.2
  (rs.1, updateEvents ++ rs.2 ++ Engine.endFrame, fr.1)

/-- Input of one frame: the two clock samples and the scene's cameras. -/
structure FrameInput where
  nowBegin : Rat
  nowUpdate : Rat
  cameras : List Camera
deriving Repr, DecidableEq

/-- A run of the orchestrator: successive `RenderLoop` calls.  Returns the
final state, the concatenated event trace, and the list of per-frame
delta times recorded by `beginFrame` (`FrameContext.lastDeltaTime`). -/
def Engine.runFrames : EngineState → List FrameInput → EngineState × List GpuEvent × List Rat
  | s, [] => (s, [], [])
  | s, f :: fs =>
      let r := Engine.RenderLoop f.cameras f.nowBegin f.nowUpdate s
      let rest := Engine.runFrames r.1 fs
      (rest.1, r.2.1 ++ rest.2.1, r.2.2.lastDeltaTime :: rest.2.2)

/-! ## Trace observations -/

/-- The delta-time values passed to `sceneManager.update` in a trace. -/
def sceneUpdateDeltas (es : List GpuEvent) : List Rat :=
  es.filterMap fun e =>
    match e with
    | .sceneUpdate d => some d
    | _ => none

/-- The buffer-creation events of a trace, as (id, size) pairs. -/
def createBufferEvents (es : List GpuEvent) : List (Nat × Nat) :=
  es.filterMap fun e =>
    match e with
    | .createBuffer i n => some (i, n)
    | _ => none

/-- The draw calls of a trace. -/
def drawEvents (es : List GpuEvent) : List GpuEvent :=
  es.filter fun e =>
    match e with
    | .draw _ => true
    | .drawIndexed _ => true
    | _ => false

/-- Projects a trace onto its uniform-buffer writes (`true`) and draw
calls (`false`), discarding all other events. -/
def wdFlags (es : List GpuEvent) : List Bool :=
  es.filterMap fun e =>
    match e with
    | .writeBuffer _ _ _ _ => some true
    | .draw _ => some false
    | .drawIndexed _ => some false
    | _ => none

/-- Holds when a write/draw projection consists of consecutive
write-then-draw pairs: every uniform write is immediately followed by the
draw that consumes it, before the next write. -/
def isWDpairs : List Bool → Bool
  | [] => true
  | true :: false :: rest => isWDpairs rest
  | _ => false

/-- The ids of the uniform-buffer write events of a trace. -/
def writeIds (es : List GpuEvent) : List Nat :=
  es.filterMap fun e =>
    match e with
    | .writeBuffer i _ _ _ => some i
    | _ => none

/-! ## Theorems about the surface resource manager -/

/-- The effective backing size `updateSize` computes from the displayed
size and the pixel ratio. -/
def effectiveSize (c : CanvasContext) (pixelRatio : Rat) : Size :=
  { width := ⌊c.canvas.clientWidth * pixelRatio⌋
    height := ⌊c.canvas.clientHeight * pixelRatio⌋ }

lemma updateSize_of_unchanged (c : CanvasContext) (ρ : Rat)
    (h : c.size = effectiveSize c ρ) : c.updateSize ρ = c := by
  have hw : c.size.width = ⌊c.canvas.clientWidth * ρ⌋ := by rw [h]; rfl
  have hh : c.size.height = ⌊c.canvas.clientHeight * ρ⌋ := by rw [h]; rfl
  simp [CanvasContext.updateSize, hw, hh]

lemma updateSize_of_changed (c : CanvasContext) (ρ : Rat)
    (h : c.size ≠ effectiveSize c ρ) :
    c.updateSize ρ =
      c.resize ⌊c.canvas.clientWidth * ρ⌋ ⌊c.canvas.clientHeight * ρ⌋ := by
  rw [CanvasContext.updateSize]
  have : ¬(c.size.width = ⌊c.canvas.clientWidth * ρ⌋ ∧
      c.size.height = ⌊c.canvas.clientHeight * ρ⌋) := by
    intro ⟨hw, hh⟩
    apply h
    cases hs : c.size with
    | mk w h => simp only [effectiveSize]; rw [hs] at hw hh; simp_all
  simp only [this, if_false]

lemma updateSize_resizeCount (c : CanvasContext) (ρ : Rat) :
    (c.updateSize ρ).resizeCount =
      c.resizeCount + (if c.size = effectiveSize c ρ then 0 else 1) := by
  by_cases h : c.size = effectiveSize c ρ
  · rw [updateSize_of_unchanged c ρ h, if_pos h]; omega
  · rw [updateSize_of_changed c ρ h, if_neg h]; rfl

/-- Restatement of `changedCalls` through `effectiveSize`. -/
lemma changedCalls_cons (c : CanvasContext) (ρ : Rat) (ρs : List Rat) :
    c.changedCalls (ρ :: ρs) =
      (if c.size = effectiveSize c ρ then 0 else 1) +
        (c.updateSize ρ).changedCalls ρs := by
  rw [CanvasContext.changedCalls]
  congr 1
  by_cases h : c.size = effectiveSize c ρ
  · rw [if_pos h, if_pos]
    exact ⟨by rw [h]; rfl, by rw [h]; rfl⟩
  · rw [if_neg h, if_neg]
    intro ⟨hw, hh⟩
    apply h
    cases hs : c.size with
    | mk w hgt => simp only [effectiveSize]; rw [hs] at hw hh; simp_all

/-- C4: in every sequence of `updateSize` calls, the presentation chain is
reconfigured (the canvas backing store resized, the only reconfiguration
path) exactly once per call whose computed effective size differs from the
stored size and zero times for unchanged calls, and an unchanged-size call
leaves the whole surface state unmodified. -/
theorem C4_reconfigure_only_on_change (c : CanvasContext) (ρs : List Rat) :
    ((c.updateSizes ρs).resizeCount = c.resizeCount + c.changedCalls ρs) ∧
    (∀ ρ : Rat, c.size = effectiveSize c ρ → c.updateSize ρ = c) := by
  constructor
  · induction ρs generalizing c with
    | nil => rfl
    | cons ρ ρs ih =>
        rw [CanvasContext.updateSizes, changedCalls_cons, ih,
          updateSize_resizeCount]
        omega
  · exact fun ρ h => updateSize_of_unchanged c ρ h

/-- Witness for C4 at a concrete surface: displayed size 800×600 at pixel
ratio 2 (a change from 800×600 stored), then two redundant calls at the
same ratio — exactly one reconfiguration, and the redundant call is a
strict no-op. -/
theorem C4_reconfigure_only_on_change_witness :
    (let c : CanvasContext :=
      { canvas := { width := 800, height := 600,
                    clientWidth := 800, clientHeight := 600 }
        size := { width := 800, height := 600 }
        configureCount := 1, resizeCount := 0 }
     (c.updateSizes [2, 2, 2]).resizeCount = 0 + c.changedCalls [2, 2, 2]) ∧
    (let c : CanvasContext :=
      { canvas := { width := 1600, height := 1200,
                    clientWidth := 800, clientHeight := 600 }
        size := { width := 1600, height := 1200 }
        configureCount := 1, resizeCount := 1 }
     c.updateSize 2 = c) := by
  constructor
  · exact (C4_reconfigure_only_on_change _ [2, 2, 2]).1
  · exact (C4_reconfigure_only_on_change _ []).2 2 (by norm_num [effectiveSize])

/-- C5: after any `updateSize` call the stored size equals the floor of
the displayed size multiplied by the device pixel ratio, componentwise. -/
theorem C5_size_eq_floor (c : CanvasContext) (ρ : Rat) :
    (c.updateSize ρ).size =
      { width := ⌊c.canvas.clientWidth * ρ⌋
        height := ⌊c.canvas.clientHeight * ρ⌋ } := by
  by_cases h : c.size = effectiveSize c ρ
  · rw [updateSize_of_unchanged c ρ h, h]; rfl
  · rw [updateSize_of_changed c ρ h]; rfl

/-- The implicit invariant of C10: the stored logical size mirrors the
canvas element's backing-store pixel dimensions. -/
def sizeInvariant (c : CanvasContext) : Prop :=
  c.size.width = c.canvas.width ∧ c.size.height = c.canvas.height

instance (c : CanvasContext) : Decidable (sizeInvariant c) := by
  unfold sizeInvariant; infer_instance

/-- C10: the stored size equals the canvas pixel dimensions after
construction, and every operation of the class — `configure`, `resize`,
`updateSize` — preserves that equality. -/
theorem C10_size_invariant (canvas : HTMLCanvas) (c : CanvasContext)
    (w h : Int) (ρ : Rat) (hc : sizeInvariant c) :
    sizeInvariant (CanvasContext.create canvas) ∧
    sizeInvariant (c.resize w h) ∧
    sizeInvariant (c.updateSize ρ) ∧
    sizeInvariant c.configure := by
  refine ⟨⟨rfl, rfl⟩, ⟨rfl, rfl⟩, ?_, hc⟩
  by_cases hch : c.size = effectiveSize c ρ
  · rw [updateSize_of_unchanged c ρ hch]; exact hc
  · rw [updateSize_of_changed c ρ hch]; exact ⟨rfl, rfl⟩

/-- Witness for C10 on a concrete surface and operations. -/
theorem C10_size_invariant_witness :
    sizeInvariant (CanvasContext.create
      { width := 300, height := 150, clientWidth := 400, clientHeight := 200 }) ∧
    sizeInvariant ((CanvasContext.create
      { width := 300, height := 150, clientWidth := 400, clientHeight := 200 }).resize 9 7) ∧
    sizeInvariant ((CanvasContext.create
      { width := 300, height := 150, clientWidth := 400, clientHeight := 200 }).updateSize 2) ∧
    sizeInvariant (CanvasContext.create
      { width := 300, height := 150, clientWidth := 400, clientHeight := 200 }).configure :=
  C10_size_invariant _ _ 9 7 2 (by decide)

/-! ## Theorems about the pipeline cache -/

/-- C3: on a missing key, two successive `getOrCreate` calls with the same
key invoke the builder exactly once (on the first call), the built
pipeline is stored under the key, both calls return the identical cached
pipeline object, and the cache hit mutates nothing and compiles nothing. -/
theorem C3_getOrCreate_caches (pm : PipelineManager) (dev : Device)
    (key : String) (builder : Unit → GPURenderPipelineDescriptor)
    (hmiss : pm.get key = none) :
    ((pm.getOrCreate dev key builder).builderCalls = 1) ∧
    ((pm.getOrCreate dev key builder).manager.getOrCreate
        (pm.getOrCreate dev key builder).device key builder).builderCalls = 0 ∧
    ((pm.getOrCreate dev key builder).manager.getOrCreate
        (pm.getOrCreate dev key builder).device key builder).pipeline =
      (pm.getOrCreate dev key builder).pipeline ∧
    (pm.getOrCreate dev key builder).manager.get key =
      some (pm.getOrCreate dev key builder).pipeline ∧
    ((pm.getOrCreate dev key builder).manager.getOrCreate
        (pm.getOrCreate dev key builder).device key builder).manager =
      (pm.getOrCreate dev key builder).manager ∧
    ((pm.getOrCreate dev key builder).manager.getOrCreate
        (pm.getOrCreate dev key builder).device key builder).device =
      (pm.getOrCreate dev key builder).device := by
  have hstore :
      (pm.getOrCreate dev key builder).manager.get key =
        some (pm.getOrCreate dev key builder).pipeline := by
    simp only [PipelineManager.getOrCreate, hmiss]
    simp [PipelineManager.get, List.lookup]
  have hcalls : (pm.getOrCreate dev key builder).builderCalls = 1 := by
    simp only [PipelineManager.getOrCreate, hmiss]
  have hhit : ∀ (pm2 : PipelineManager) (dev2 : Device) (p : GPURenderPipeline),
      pm2.get key = some p →
      pm2.getOrCreate dev2 key builder =
        { pipeline := p, manager := pm2, device := dev2, builderCalls := 0 } := by
    intro pm2 dev2 p hp
    simp only [PipelineManager.getOrCreate, hp]
  rw [hhit _ _ _ hstore]
  exact ⟨hcalls, rfl, rfl, hstore, rfl, rfl⟩

/-- Witness for C3: an empty cache, the engine's actual key and builder. -/
theorem C3_getOrCreate_caches_witness :
    ((PipelineManager.mk []).getOrCreate ⟨0, 0⟩ "basic_bgra8unorm"
        (fun _ => Engine.createRenderPipelineDescriptor "bgra8unorm")).builderCalls = 1 ∧
    (((PipelineManager.mk []).getOrCreate ⟨0, 0⟩ "basic_bgra8unorm"
        (fun _ => Engine.createRenderPipelineDescriptor "bgra8unorm")).manager.getOrCreate
        ((PipelineManager.mk []).getOrCreate ⟨0, 0⟩ "basic_bgra8unorm"
          (fun _ => Engine.createRenderPipelineDescriptor "bgra8unorm")).device
        "basic_bgra8unorm"
        (fun _ => Engine.createRenderPipelineDescriptor "bgra8unorm")).builderCalls = 0 ∧
    (((PipelineManager.mk []).getOrCreate ⟨0, 0⟩ "basic_bgra8unorm"
        (fun _ => Engine.createRenderPipelineDescriptor "bgra8unorm")).manager.getOrCreate
        ((PipelineManager.mk []).getOrCreate ⟨0, 0⟩ "basic_bgra8unorm"
          (fun _ => Engine.createRenderPipelineDescriptor "bgra8unorm")).device
        "basic_bgra8unorm"
        (fun _ => Engine.createRenderPipelineDescriptor "bgra8unorm")).pipeline =
      ((PipelineManager.mk []).getOrCreate ⟨0, 0⟩ "basic_bgra8unorm"
        (fun _ => Engine.createRenderPipelineDescriptor "bgra8unorm")).pipeline ∧
    ((PipelineManager.mk []).getOrCreate ⟨0, 0⟩ "basic_bgra8unorm"
        (fun _ => Engine.createRenderPipelineDescriptor "bgra8unorm")).manager.get
        "basic_bgra8unorm" =
      some ((PipelineManager.mk []).getOrCreate ⟨0, 0⟩ "basic_bgra8unorm"
        (fun _ => Engine.createRenderPipelineDescriptor "bgra8unorm")).pipeline ∧
    (((PipelineManager.mk []).getOrCreate ⟨0, 0⟩ "basic_bgra8unorm"
        (fun _ => Engine.createRenderPipelineDescriptor "bgra8unorm")).manager.getOrCreate
        ((PipelineManager.mk []).getOrCreate ⟨0, 0⟩ "basic_bgra8unorm"
          (fun _ => Engine.createRenderPipelineDescriptor "bgra8unorm")).device
        "basic_bgra8unorm"
        (fun _ => Engine.createRenderPipelineDescriptor "bgra8unorm")).manager =
      ((PipelineManager.mk []).getOrCreate ⟨0, 0⟩ "basic_bgra8unorm"
        (fun _ => Engine.createRenderPipelineDescriptor "bgra8unorm")).manager ∧
    (((PipelineManager.mk []).getOrCreate ⟨0, 0⟩ "basic_bgra8unorm"
        (fun _ => Engine.createRenderPipelineDescriptor "bgra8unorm")).manager.getOrCreate
        ((PipelineManager.mk []).getOrCreate ⟨0, 0⟩ "basic_bgra8unorm"
          (fun _ => Engine.createRenderPipelineDescriptor "bgra8unorm")).device
        "basic_bgra8unorm"
        (fun _ => Engine.createRenderPipelineDescriptor "bgra8unorm")).device =
      ((PipelineManager.mk []).getOrCreate ⟨0, 0⟩ "basic_bgra8unorm"
        (fun _ => Engine.createRenderPipelineDescriptor "bgra8unorm")).device :=
  C3_getOrCreate_caches (PipelineManager.mk []) ⟨0, 0⟩ "basic_bgra8unorm"
    (fun _ => Engine.createRenderPipelineDescriptor "bgra8unorm") rfl

/-! ## Theorems about draw encoding (C8) -/

/-- The single draw call `encodeRenderable` is expected to produce for a
renderable. -/
def expectedDraw (r : Renderable) : GpuEvent :=
  match r.mesh.indexBuffer with
  | some _ => GpuEvent.drawIndexed r.mesh.indexCount
  | none => GpuEvent.draw r.mesh.vertexCount

lemma drawEvents_append (a b : List GpuEvent) :
    drawEvents (a ++ b) = drawEvents a ++ drawEvents b := by
  simp [drawEvents]

lemma drawEvents_encodeRenderable (i : Nat) (v p : Mat4) (r : Renderable) :
    drawEvents (Engine.encodeRenderable i v p r) = [expectedDraw r] := by
  cases h : r.mesh.indexBuffer <;>
    simp [Engine.encodeRenderable, drawEvents, expectedDraw, h]

lemma drawEvents_flatMap (i : Nat) (v p : Mat4) (rs : List Renderable) :
    drawEvents (rs.flatMap (Engine.encodeRenderable i v p)) =
      rs.map expectedDraw := by
  induction rs with
  | nil => rfl
  | cons r rs ih =>
      simp only [List.flatMap_cons, drawEvents_append,
        drawEvents_encodeRenderable, ih, List.map_cons, List.singleton_append]

lemma drawEvents_allocUniform (dev : Device) (o : Option GPUBuffer) :
    drawEvents (Engine.allocUniform dev o).2.2 = [] := by
  cases o <;> rfl

lemma drawEvents_renderCameraResolved (camera : Camera) (s : EngineState)
    (format : String) (resolveEvents : List GpuEvent)
    (hres : drawEvents resolveEvents = []) :
    drawEvents (Engine.renderCameraResolved camera s format resolveEvents).2 =
      camera.scene.renderables.map expectedDraw := by
  simp only [Engine.renderCameraResolved, drawEvents_append, hres,
    drawEvents_allocUniform, drawEvents_flatMap]
  simp [drawEvents]

/-- Whether `renderCamera` can resolve the camera's render target against
the current state (a canvas target needs a registered context; a texture
target always resolves). -/
def Engine.resolvable (s : EngineState) (t : RenderTarget) : Bool :=
  match t with
  | .canvas canvasId => (s.canvasManager.getContext canvasId).isSome
  | .texture _ _ _ => true

/-- C8: for every renderable drawn in a frame exactly one draw call is
encoded, in renderable order — an indexed draw of `indexCount` (with the
index buffer bound as `uint16`) when the mesh carries an index buffer,
otherwise a non-indexed draw of `vertexCount`. -/
theorem C8_one_draw_per_renderable (camera : Camera) (s : EngineState)
    (hres : Engine.resolvable s camera.target = true) :
    drawEvents (Engine.renderCamera camera s).2 =
      camera.scene.renderables.map expectedDraw ∧
    ∀ r ∈ camera.scene.renderables, ∀ ib, r.mesh.indexBuffer = some ib →
      GpuEvent.setIndexBuffer ib "uint16" ∈ (Engine.renderCamera camera s).2 := by
  have main : ∀ (fmt : String) (resolveEvents : List GpuEvent),
      drawEvents resolveEvents = [] →
      drawEvents (Engine.renderCameraResolved camera s fmt resolveEvents).2 =
        camera.scene.renderables.map expectedDraw ∧
      ∀ r ∈ camera.scene.renderables, ∀ ib, r.mesh.indexBuffer = some ib →
        GpuEvent.setIndexBuffer ib "uint16" ∈
          (Engine.renderCameraResolved camera s fmt resolveEvents).2 := by
    intro fmt resolveEvents h0
    refine ⟨drawEvents_renderCameraResolved camera s fmt resolveEvents h0, ?_⟩
    intro r hr ib hib
    have hmem : GpuEvent.setIndexBuffer ib "uint16" ∈
        camera.scene.renderables.flatMap
          (Engine.encodeRenderable
            (Engine.allocUniform
              (s.pipelineManager.getOrCreate s.device ("basic_" ++ fmt)
                (fun _ => Engine.createRenderPipelineDescriptor fmt)).device
              s.uniformBuffer).1.id
            camera.viewMatrix camera.projectionMatrix) :=
      List.mem_flatMap.mpr ⟨r, hr, by simp [Engine.encodeRenderable, hib]⟩
    simp only [Engine.renderCameraResolved, List.mem_append]
    tauto
  cases ht : camera.target with
  | canvas canvasId =>
      cases hctx : s.canvasManager.getContext canvasId with
      | none =>
          rw [ht] at hres
          simp [Engine.resolvable, hctx] at hres
      | some ctx =>
          simp only [Engine.renderCamera, ht, hctx]
          apply main
          cases camera.isPerspective <;> rfl
  | texture t w h =>
      simp only [Engine.renderCamera, ht]
      exact main preferredCanvasFormat [] rfl

/-- The witness scene of the spec's §8 scenario: one renderable indexed
with 6 indices and one with 3 vertices and no index buffer. -/
def exIndexedRenderable : Renderable :=
  { transform := List.replicate 16 1
    mesh := { vertexBuffer := 10, indexBuffer := some 11,
              indexCount := 6, vertexCount := 4 } }

/-- The witness renderable without an index buffer. -/
def exPlainRenderable : Renderable :=
  { transform := List.replicate 16 1
    mesh := { vertexBuffer := 12, indexBuffer := none,
              indexCount := 0, vertexCount := 3 } }

/-- A camera rendering both witness renderables to an off-screen target. -/
def exCamera : Camera :=
  { scene := { renderables := [exIndexedRenderable, exPlainRenderable] }
    target := .texture 5 640 480
    enabled := true
    order := 0
    isPerspective := false
    viewMatrix := List.replicate 16 2
    projectionMatrix := List.replicate 16 3 }

/-- A fresh engine state with one registered canvas (id "main"). -/
def exState : EngineState :=
  Engine.create { nextPipelineId := 0, nextBufferId := 0 }
    { contexts := [("main",
        CanvasContext.create
          { width := 800, height := 600, clientWidth := 800, clientHeight := 600 })] }

/-- Witness for C8: the §8 scenario — 6 indices give one indexed draw of
count 6, 3 indexless vertices give one non-indexed draw of count 3. -/
theorem C8_one_draw_per_renderable_witness :
    drawEvents (Engine.renderCamera exCamera exState).2 =
      [GpuEvent.drawIndexed 6, GpuEvent.draw 3] ∧
    GpuEvent.setIndexBuffer 11 "uint16" ∈ (Engine.renderCamera exCamera exState).2 := by
  have h := C8_one_draw_per_renderable exCamera exState rfl
  refine ⟨?_, h.2 exIndexedRenderable (by simp [exCamera]) 11 rfl⟩
  rw [h.1]
  rfl

/-! ## Theorems about frame delta times (C9, C1) -/

lemma renderCamera_lastFrameTime (c : Camera) (s : EngineState) :
    (Engine.renderCamera c s).1.lastFrameTime = s.lastFrameTime := by
  cases ht : c.target with
  | canvas canvasId =>
      cases hctx : s.canvasManager.getContext canvasId with
      | none => simp [Engine.renderCamera, ht, hctx]
      | some ctx => simp [Engine.renderCamera, ht, hctx, Engine.renderCameraResolved]
  | texture t w h => simp [Engine.renderCamera, ht, Engine.renderCameraResolved]

lemma renderCameras_lastFrameTime (cs : List Camera) (s : EngineState) :
    (Engine.renderCameras cs s).1.lastFrameTime = s.lastFrameTime := by
  induction cs generalizing s with
  | nil => rfl
  | cons c cs ih =>
      simp only [Engine.renderCameras]
      rw [ih, renderCamera_lastFrameTime]

lemma RenderLoop_lastFrameTime (cams : List Camera) (t1 t2 : Rat)
    (s : EngineState) :
    (Engine.RenderLoop cams t1 t2 s).1.lastFrameTime = t1 := by
  simp only [Engine.RenderLoop]
  rw [renderCameras_lastFrameTime]
  rfl

lemma runFrames_deltas_cons (s : EngineState) (f : FrameInput)
    (fs : List FrameInput) :
    (Engine.runFrames s (f :: fs)).2.2 =
      (if s.lastFrameTime = 0 then 0 else (f.nowBegin - s.lastFrameTime) / 1000) ::
        (Engine.runFrames
          (Engine.RenderLoop f.cameras f.nowBegin f.nowUpdate s).1 fs).2.2 :=
  rfl

lemma runFrames_deltas_nonneg (inputs : List FrameInput) (s : EngineState)
    (hmono : List.Chain' (· ≤ ·) (inputs.map FrameInput.nowBegin))
    (hlink : ∀ f, inputs.head? = some f →
      s.lastFrameTime = 0 ∨ s.lastFrameTime ≤ f.nowBegin) :
    ∀ d ∈ (Engine.runFrames s inputs).2.2, 0 ≤ d := by
  induction inputs generalizing s with
  | nil => intro d hd; simp [Engine.runFrames] at hd
  | cons f fs ih =>
      intro d hd
      rw [runFrames_deltas_cons] at hd
      rcases List.mem_cons.1 hd with h1 | h2
      · subst h1
        by_cases hz : s.lastFrameTime = 0
        · simp [hz]
        · rcases hlink f rfl with h0 | hle
          · exact absurd h0 hz
          · rw [if_neg hz]
            have : (0 : Rat) ≤ f.nowBegin - s.lastFrameTime := by linarith
            positivity
      · rw [List.map_cons] at hmono
        rcases List.chain'_cons'.1 hmono with ⟨hhead, htail⟩
        refine ih _ htail ?_ d h2
        intro g hg
        right
        rw [RenderLoop_lastFrameTime]
        have := hhead g.nowBegin
        rw [List.head?_map, hg] at this
        exact this rfl

/-- C9: starting from a fresh engine, the first frame's `beginFrame`
records a delta time of exactly 0, and under a monotone clock every
frame's delta time is non-negative. -/
theorem C9_first_delta_zero_then_nonneg (dev : Device) (cm : CanvasManager)
    (inputs : List FrameInput)
    (hmono : List.Chain' (· ≤ ·) (inputs.map FrameInput.nowBegin)) :
    (∀ d, ((Engine.runFrames (Engine.create dev cm) inputs).2.2).head? = some d →
      d = 0) ∧
    ∀ d ∈ (Engine.runFrames (Engine.create dev cm) inputs).2.2, 0 ≤ d := by
  constructor
  · intro d hd
    cases inputs with
    | nil => simp [Engine.runFrames] at hd
    | cons f fs =>
        rw [runFrames_deltas_cons] at hd
        simp only [List.head?_cons, Option.some.injEq] at hd
        have : (Engine.create dev cm).lastFrameTime = 0 := rfl
        rw [this] at hd
        simp at hd
        exact hd.symm
  · exact runFrames_deltas_nonneg inputs (Engine.create dev cm) hmono
      (fun f _ => Or.inl rfl)

/-- Witness for C9: two frames at 1000 ms and 2500 ms. -/
theorem C9_first_delta_zero_then_nonneg_witness :
    (∀ d, ((Engine.runFrames (Engine.create ⟨0, 0⟩ ⟨[]⟩)
        [⟨1000, 1000, []⟩, ⟨2500, 2500, []⟩]).2.2).head? = some d → d = 0) ∧
    ∀ d ∈ (Engine.runFrames (Engine.create ⟨0, 0⟩ ⟨[]⟩)
        [⟨1000, 1000, []⟩, ⟨2500, 2500, []⟩]).2.2, 0 ≤ d :=
  C9_first_delta_zero_then_nonneg ⟨0, 0⟩ ⟨[]⟩
    [⟨1000, 1000, []⟩, ⟨2500, 2500, []⟩] (by norm_num [List.chain'_cons])

/-- C1 (code bug): the delta time delivered to the scene collaborator's
update hook does not equal the frame's delta time computed at
`beginFrame`.  On the run with `beginFrame` sampled at 1000 ms and
2000 ms (and `buildRenderStack` at the same instants), the frames' delta
times are 0 and 1 s, but `sceneManager.update` receives 0 in both
frames: `buildRenderStack` recomputes its delta from `_lastFrameTime`
after `beginFrame` has already overwritten it with the current frame's
timestamp, instead of using the computed `FrameContext.lastDeltaTime`. -/
theorem C1_update_receives_stale_delta :
    (Engine.runFrames (Engine.create ⟨0, 0⟩ ⟨[]⟩)
        [⟨1000, 1000, []⟩, ⟨2000, 2000, []⟩]).2.2 = [0, 1] ∧
    sceneUpdateDeltas (Engine.runFrames (Engine.create ⟨0, 0⟩ ⟨[]⟩)
        [⟨1000, 1000, []⟩, ⟨2000, 2000, []⟩]).2.1 = [0, 0] := by
  norm_num [Engine.runFrames, Engine.RenderLoop, Engine.beginFrame,
    Engine.buildRenderStack, Engine.renderCameras, SceneManager.getRenderCameras,
    Engine.endFrame, Engine.create, sceneUpdateDeltas, List.filterMap]

/-! ## Theorems about camera iteration order (C2) and skipping (C6) -/

lemma cameraLE_trans : ∀ a b c : Camera,
    cameraLE a b → cameraLE b c → cameraLE a c := by
  intro a b c hab hbc
  simp only [cameraLE, decide_eq_true_eq] at *
  omega

lemma cameraLE_total : ∀ a b : Camera, cameraLE a b || cameraLE b a := by
  intro a b
  simp only [cameraLE, Bool.or_eq_true, decide_eq_true_eq]
  omega

lemma getRenderCameras_enabled (cameras : List Camera) :
    ∀ c ∈ SceneManager.getRenderCameras cameras, c.enabled = true := by
  intro c hc
  rw [SceneManager.getRenderCameras, List.mem_mergeSort] at hc
  exact List.of_mem_filter hc

lemma getRenderCameras_sorted (cameras : List Camera) :
    (SceneManager.getRenderCameras cameras).Pairwise
      (fun a b => a.order ≤ b.order) := by
  have h := List.sorted_mergeSort cameraLE_trans cameraLE_total
    (cameras.filter (fun c => c.enabled))
  exact h.imp (fun hab => by simpa [cameraLE] using hab)

/-- C2: the orchestrator draws exactly the camera sequence the scene
collaborator yields, with no re-sort of its own (the frame trace is the
concatenation of the per-camera traces in yielded order), and that
sequence consists of the enabled cameras in ascending `order`, a stable
permutation of the enabled sublist (sorted sublists of the input are
preserved — the stability characterisation of the merge sort). -/
theorem C2_camera_iteration_order (cameras : List Camera) (t1 t2 : Rat)
    (s : EngineState) :
    (∀ c ∈ SceneManager.getRenderCameras cameras, c.enabled = true) ∧
    (SceneManager.getRenderCameras cameras).Pairwise
      (fun a b => a.order ≤ b.order) ∧
    (SceneManager.getRenderCameras cameras).Perm
      (cameras.filter (fun c => c.enabled)) ∧
    (∀ l : List Camera, l.Pairwise (fun a b => a.order ≤ b.order) →
      l.Sublist (cameras.filter (fun c => c.enabled)) →
      l.Sublist (SceneManager.getRenderCameras cameras)) ∧
    (Engine.RenderLoop cameras t1 t2 s).2.1 =
      Engine.buildRenderStack t2 (Engine.beginFrame t1 s).2 ++
        (Engine.renderCameras (SceneManager.getRenderCameras cameras)
          (Engine.beginFrame t1 s).2).2 ++ Engine.endFrame := by
  refine ⟨getRenderCameras_enabled cameras, getRenderCameras_sorted cameras,
    ?_, ?_, rfl⟩
  · exact List.mergeSort_perm _ _
  · intro l hpair hsub
    exact List.sublist_mergeSort cameraLE_trans cameraLE_total
      (hpair.imp (fun hab => by simpa [cameraLE] using hab)) hsub

/-- A second camera drawing to the registered canvas "main" with a higher
priority value than `exCamera`. -/
def exCanvasCamera : Camera :=
  { scene := { renderables := [exPlainRenderable] }
    target := .canvas "main"
    enabled := true
    order := 7
    isPerspective := true
    viewMatrix := List.replicate 16 4
    projectionMatrix := List.replicate 16 5 }

/-- A disabled camera that must never be yielded. -/
def exDisabledCamera : Camera :=
  { exCanvasCamera with enabled := false, order := -5 }

/-- Witness for C2 on a concrete three-camera scene (one disabled, two
enabled given out of priority order). -/
theorem C2_camera_iteration_order_witness :
    (∀ c ∈ SceneManager.getRenderCameras
        [exCanvasCamera, exDisabledCamera, exCamera], c.enabled = true) ∧
    (SceneManager.getRenderCameras
        [exCanvasCamera, exDisabledCamera, exCamera]).Pairwise
      (fun a b => a.order ≤ b.order) ∧
    (SceneManager.getRenderCameras
        [exCanvasCamera, exDisabledCamera, exCamera]).Perm
      ([exCanvasCamera, exDisabledCamera, exCamera].filter
        (fun c => c.enabled)) ∧
    (∀ l : List Camera, l.Pairwise (fun a b => a.order ≤ b.order) →
      l.Sublist ([exCanvasCamera, exDisabledCamera, exCamera].filter
        (fun c => c.enabled)) →
      l.Sublist (SceneManager.getRenderCameras
        [exCanvasCamera, exDisabledCamera, exCamera])) ∧
    (Engine.RenderLoop [exCanvasCamera, exDisabledCamera, exCamera]
        1000 1000 exState).2.1 =
      Engine.buildRenderStack 1000 (Engine.beginFrame 1000 exState).2 ++
        (Engine.renderCameras (SceneManager.getRenderCameras
            [exCanvasCamera, exDisabledCamera, exCamera])
          (Engine.beginFrame 1000 exState).2).2 ++ Engine.endFrame :=
  C2_camera_iteration_order [exCanvasCamera, exDisabledCamera, exCamera]
    1000 1000 exState

lemma renderCamera_canvasManager (c : Camera) (s : EngineState) :
    (Engine.renderCamera c s).1.canvasManager = s.canvasManager := by
  cases ht : c.target with
  | canvas canvasId =>
      cases hctx : s.canvasManager.getContext canvasId with
      | none => simp [Engine.renderCamera, ht, hctx]
      | some ctx =>
          simp [Engine.renderCamera, ht, hctx, Engine.renderCameraResolved]
  | texture t w h => simp [Engine.renderCamera, ht, Engine.renderCameraResolved]

lemma renderCameras_canvasManager (cs : List Camera) (s : EngineState) :
    (Engine.renderCameras cs s).1.canvasManager = s.canvasManager := by
  induction cs generalizing s with
  | nil => rfl
  | cons c cs ih =>
      simp only [Engine.renderCameras]
      rw [ih, renderCamera_canvasManager]

lemma renderCameras_append (l1 l2 : List Camera) (s : EngineState) :
    Engine.renderCameras (l1 ++ l2) s =
      ((Engine.renderCameras l2 (Engine.renderCameras l1 s).1).1,
       (Engine.renderCameras l1 s).2 ++
         (Engine.renderCameras l2 (Engine.renderCameras l1 s).1).2) := by
  induction l1 generalizing s with
  | nil => simp [Engine.renderCameras]
  | cons c cs ih =>
      show Engine.renderCameras (c :: (cs ++ l2)) s = _
      simp only [Engine.renderCameras]
      rw [ih]
      simp [List.append_assoc]

lemma renderCamera_skip (c : Camera) (s : EngineState) (cid : String)
    (ht : c.target = RenderTarget.canvas cid)
    (hmiss : s.canvasManager.getContext cid = none) :
    Engine.renderCamera c s = (s, [GpuEvent.warnCanvasNotFound cid]) := by
  simp [Engine.renderCamera, ht, hmiss]

/-- C6: when some camera's surface-backed target refers to an unregistered
surface id, that camera alone is skipped with a warning diagnostic and an
unchanged engine state, while every other camera in the frame is still
drawn (with exactly the state it would otherwise have seen) and the frame
trace still ends with the queue submission.  The frame functions are total
Lean functions, so no exception can escape the loop. -/
theorem C6_missing_surface_skips_one_camera (s : EngineState)
    (cameras pre post : List Camera) (bad : Camera) (cid : String)
    (t1 t2 : Rat)
    (hsplit : SceneManager.getRenderCameras cameras = pre ++ bad :: post)
    (htarget : bad.target = RenderTarget.canvas cid)
    (hmissing : s.canvasManager.getContext cid = none) :
    Engine.renderCamera bad
        (Engine.renderCameras pre (Engine.beginFrame t1 s).2).1 =
      ((Engine.renderCameras pre (Engine.beginFrame t1 s).2).1,
       [GpuEvent.warnCanvasNotFound cid]) ∧
    (Engine.RenderLoop cameras t1 t2 s).2.1 =
      Engine.buildRenderStack t2 (Engine.beginFrame t1 s).2 ++
        ((Engine.renderCameras pre (Engine.beginFrame t1 s).2).2 ++
          ([GpuEvent.warnCanvasNotFound cid] ++
            (Engine.renderCameras post
              (Engine.renderCameras pre (Engine.beginFrame t1 s).2).1).2)) ++
        Engine.endFrame := by
  have hcm : (Engine.renderCameras pre
      (Engine.beginFrame t1 s).2).1.canvasManager = s.canvasManager := by
    rw [renderCameras_canvasManager]
    rfl
  have hskip := renderCamera_skip bad
    (Engine.renderCameras pre (Engine.beginFrame t1 s).2).1 cid htarget
    (by rw [hcm]; exact hmissing)
  refine ⟨hskip, ?_⟩
  show Engine.buildRenderStack t2 (Engine.beginFrame t1 s).2 ++
      (Engine.renderCameras (SceneManager.getRenderCameras cameras)
        (Engine.beginFrame t1 s).2).2 ++ Engine.endFrame = _
  rw [hsplit, renderCameras_append]
  simp only [Engine.renderCameras, hskip]

/-- The C6 witness camera whose canvas id "ghost" is unregistered. -/
def exGhostCamera : Camera :=
  { exCamera with target := .canvas "ghost", order := 8 }

/-- Witness for C6: the camera targeting the unregistered canvas "ghost"
follows two drawable cameras in the yielded order. -/
theorem C6_missing_surface_skips_one_camera_witness :
    Engine.renderCamera exGhostCamera
        (Engine.renderCameras [exCamera, exCanvasCamera]
          (Engine.beginFrame 1000 exState).2).1 =
      ((Engine.renderCameras [exCamera, exCanvasCamera]
          (Engine.beginFrame 1000 exState).2).1,
       [GpuEvent.warnCanvasNotFound "ghost"]) ∧
    (Engine.RenderLoop [exCamera, exCanvasCamera, exGhostCamera]
        1000 1000 exState).2.1 =
      Engine.buildRenderStack 1000 (Engine.beginFrame 1000 exState).2 ++
        ((Engine.renderCameras [exCamera, exCanvasCamera]
            (Engine.beginFrame 1000 exState).2).2 ++
          ([GpuEvent.warnCanvasNotFound "ghost"] ++
            (Engine.renderCameras []
              (Engine.renderCameras [exCamera, exCanvasCamera]
                (Engine.beginFrame 1000 exState).2).1).2)) ++
        Engine.endFrame := by
  have hfilter : [exCamera, exCanvasCamera, exGhostCamera].filter
      (fun c => c.enabled) = [exCamera, exCanvasCamera, exGhostCamera] := by
    simp [List.filter, exCamera, exCanvasCamera, exGhostCamera]
  have hsplit : SceneManager.getRenderCameras
      [exCamera, exCanvasCamera, exGhostCamera] =
      [exCamera, exCanvasCamera] ++ exGhostCamera :: [] := by
    rw [SceneManager.getRenderCameras, hfilter]
    exact List.mergeSort_of_sorted (by decide)
  exact C6_missing_surface_skips_one_camera exState
    [exCamera, exCanvasCamera, exGhostCamera]
    [exCamera, exCanvasCamera] [] exGhostCamera
    "ghost" 1000 1000 hsplit rfl rfl

/-! ## Theorems about the shared uniform buffer (C7) -/

/-- Number of live uniform buffers in an engine state (0 or 1). -/
def ubCount : Option GPUBuffer → Nat
  | none => 0
  | some _ => 1

lemma ubCount_le_one (o : Option GPUBuffer) : ubCount o ≤ 1 := by
  cases o <;> simp [ubCount]

lemma createBufferEvents_append (a b : List GpuEvent) :
    createBufferEvents (a ++ b) = createBufferEvents a ++ createBufferEvents b := by
  simp [createBufferEvents]

lemma writeIds_append (a b : List GpuEvent) :
    writeIds (a ++ b) = writeIds a ++ writeIds b := by
  simp [writeIds]

lemma wdFlags_append (a b : List GpuEvent) :
    wdFlags (a ++ b) = wdFlags a ++ wdFlags b := by
  simp [wdFlags]

lemma isWDpairs_append :
    ∀ a b : List Bool, isWDpairs a = true → isWDpairs b = true →
      isWDpairs (a ++ b) = true
  | [], b, _, hb => hb
  | true :: false :: rest, b, ha, hb => by
      rw [List.cons_append, List.cons_append, isWDpairs]
      rw [isWDpairs] at ha
      exact isWDpairs_append rest b ha hb
  | [true], _, ha, _ => Bool.noConfusion ha
  | [false], _, ha, _ => Bool.noConfusion ha
  | false :: _ :: _, _, ha, _ => Bool.noConfusion ha
  | true :: true :: _, _, ha, _ => Bool.noConfusion ha

lemma encodeRenderable_createBufferEvents (i : Nat) (v p : Mat4)
    (r : Renderable) :
    createBufferEvents (Engine.encodeRenderable i v p r) = [] := by
  cases h : r.mesh.indexBuffer <;>
    simp [Engine.encodeRenderable, createBufferEvents, h]

lemma encodeRenderable_writeIds (i : Nat) (v p : Mat4) (r : Renderable) :
    writeIds (Engine.encodeRenderable i v p r) = [i] := by
  cases h : r.mesh.indexBuffer <;>
    simp [Engine.encodeRenderable, writeIds, h]

lemma encodeRenderable_wdFlags (i : Nat) (v p : Mat4) (r : Renderable) :
    wdFlags (Engine.encodeRenderable i v p r) = [true, false] := by
  cases h : r.mesh.indexBuffer <;>
    simp [Engine.encodeRenderable, wdFlags, h]

lemma flatMap_encode_createBufferEvents (i : Nat) (v p : Mat4)
    (rs : List Renderable) :
    createBufferEvents (rs.flatMap (Engine.encodeRenderable i v p)) = [] := by
  induction rs with
  | nil => rfl
  | cons r rs ih =>
      simp only [List.flatMap_cons, createBufferEvents_append,
        encodeRenderable_createBufferEvents, ih, List.append_nil]

lemma flatMap_encode_writeIds (i : Nat) (v p : Mat4) (rs : List Renderable) :
    ∀ j ∈ writeIds (rs.flatMap (Engine.encodeRenderable i v p)), j = i := by
  induction rs with
  | nil => intro j hj; simp [writeIds] at hj
  | cons r rs ih =>
      intro j hj
      rw [List.flatMap_cons, writeIds_append, encodeRenderable_writeIds] at hj
      rcases List.mem_append.1 hj with h1 | h2
      · simpa using h1
      · exact ih j h2

lemma flatMap_encode_wdFlags (i : Nat) (v p : Mat4) (rs : List Renderable) :
    isWDpairs (wdFlags (rs.flatMap (Engine.encodeRenderable i v p))) = true := by
  induction rs with
  | nil => rfl
  | cons r rs ih =>
      rw [List.flatMap_cons, wdFlags_append, encodeRenderable_wdFlags]
      exact ih

/-- Evaluation of the trace observations on the literal event lists of a
render pass. -/
lemma obs_passHead (pid : Nat) :
    createBufferEvents [GpuEvent.beginRenderPass, GpuEvent.setPipeline pid] = [] ∧
    writeIds [GpuEvent.beginRenderPass, GpuEvent.setPipeline pid] = [] ∧
    wdFlags [GpuEvent.beginRenderPass, GpuEvent.setPipeline pid] = [] :=
  ⟨rfl, rfl, rfl⟩

lemma obs_endPass :
    createBufferEvents [GpuEvent.endPass] = [] ∧
    writeIds [GpuEvent.endPass] = [] ∧
    wdFlags [GpuEvent.endPass] = [] :=
  ⟨rfl, rfl, rfl⟩

lemma obs_createBuffer (i n : Nat) :
    createBufferEvents [GpuEvent.createBuffer i n] = [(i, n)] ∧
    writeIds [GpuEvent.createBuffer i n] = [] ∧
    wdFlags [GpuEvent.createBuffer i n] = [] :=
  ⟨rfl, rfl, rfl⟩

/-- The classification of the resolved tail of one `renderCamera` call:
the live uniform-buffer count grows by exactly the number of
buffer-creation events, every created buffer has byte size 192, an
existing buffer is never replaced, every uniform write targets the buffer
live at the end of the call, and writes and draws strictly alternate as
write-then-draw pairs. -/
lemma renderCameraResolved_uniform_classify (c : Camera) (s : EngineState)
    (fmt : String) (resolveEvents : List GpuEvent)
    (h1 : createBufferEvents resolveEvents = [])
    (h2 : writeIds resolveEvents = [])
    (h3 : wdFlags resolveEvents = []) :
    (ubCount (Engine.renderCameraResolved c s fmt resolveEvents).1.uniformBuffer =
      ubCount s.uniformBuffer +
        (createBufferEvents
          (Engine.renderCameraResolved c s fmt resolveEvents).2).length) ∧
    (∀ e ∈ createBufferEvents
        (Engine.renderCameraResolved c s fmt resolveEvents).2, e.2 = 192) ∧
    (∀ b, s.uniformBuffer = some b →
      (Engine.renderCameraResolved c s fmt resolveEvents).1.uniformBuffer =
        some b) ∧
    (∀ j ∈ writeIds (Engine.renderCameraResolved c s fmt resolveEvents).2,
      ∃ b, (Engine.renderCameraResolved c s fmt resolveEvents).1.uniformBuffer =
        some b ∧ j = b.id) ∧
    isWDpairs (wdFlags
      (Engine.renderCameraResolved c s fmt resolveEvents).2) = true := by
  cases hub : s.uniformBuffer with
  | some b =>
      have hwd : isWDpairs (wdFlags
          (Engine.renderCameraResolved c s fmt resolveEvents).2) = true := by
        simp only [Engine.renderCameraResolved, Engine.allocUniform, hub,
          wdFlags_append, h3, (obs_passHead _).2.2, obs_endPass.2.2]
        simp only [List.nil_append, List.append_nil]
        exact flatMap_encode_wdFlags _ _ _ _
      have hcb : createBufferEvents
          (Engine.renderCameraResolved c s fmt resolveEvents).2 = [] := by
        simp only [Engine.renderCameraResolved, Engine.allocUniform, hub,
          createBufferEvents_append, h1, (obs_passHead _).1, obs_endPass.1,
          flatMap_encode_createBufferEvents]
        simp [createBufferEvents]
      have hpost : (Engine.renderCameraResolved c s
          fmt resolveEvents).1.uniformBuffer = some b := by
        simp [Engine.renderCameraResolved, Engine.allocUniform, hub]
      refine ⟨?_, ?_, ?_, ?_, hwd⟩
      · rw [hcb, hpost]; rfl
      · intro e he; rw [hcb] at he; cases he
      · intro b2 hb2
        rw [hpost]
        exact congrArg some (Option.some.inj hb2)
      · intro j hj
        refine ⟨b, hpost, ?_⟩
        simp only [Engine.renderCameraResolved, Engine.allocUniform, hub,
          writeIds_append, h2, (obs_passHead _).2.1, obs_endPass.2.1] at hj
        simp only [List.nil_append, List.append_nil] at hj
        exact flatMap_encode_writeIds _ _ _ _ j hj
  | none =>
      have hpost : (Engine.renderCameraResolved c s
          fmt resolveEvents).1.uniformBuffer =
          some (GPUBuffer.mk
            (s.pipelineManager.getOrCreate s.device ("basic_" ++ fmt)
              (fun _ => Engine.createRenderPipelineDescriptor fmt)).device.nextBufferId
            (16 * 4 * 3)) := by
        simp [Engine.renderCameraResolved, Engine.allocUniform, hub,
          Device.createBuffer]
      have hcb : createBufferEvents
          (Engine.renderCameraResolved c s fmt resolveEvents).2 =
          [((s.pipelineManager.getOrCreate s.device ("basic_" ++ fmt)
              (fun _ => Engine.createRenderPipelineDescriptor fmt)).device.nextBufferId,
            16 * 4 * 3)] := by
        simp only [Engine.renderCameraResolved, Engine.allocUniform, hub,
          Device.createBuffer, createBufferEvents_append, h1,
          (obs_passHead _).1, obs_endPass.1, (obs_createBuffer _ _).1,
          flatMap_encode_createBufferEvents]
        simp
      have hwd : isWDpairs (wdFlags
          (Engine.renderCameraResolved c s fmt resolveEvents).2) = true := by
        simp only [Engine.renderCameraResolved, Engine.allocUniform, hub,
          Device.createBuffer, wdFlags_append, h3, (obs_passHead _).2.2,
          obs_endPass.2.2, (obs_createBuffer _ _).2.2]
        simp only [List.nil_append, List.append_nil]
        exact flatMap_encode_wdFlags _ _ _ _
      refine ⟨?_, ?_, ?_, ?_, hwd⟩
      · rw [hcb, hpost]; rfl
      · intro e he
        rw [hcb] at he
        rcases List.mem_singleton.1 he with rfl
        rfl
      · intro b2 hb2; exact Option.noConfusion hb2
      · intro j hj
        refine ⟨_, hpost, ?_⟩
        simp only [Engine.renderCameraResolved, Engine.allocUniform, hub,
          Device.createBuffer, writeIds_append, h2, (obs_passHead _).2.1,
          obs_endPass.2.1, (obs_createBuffer _ _).2.1] at hj
        simp only [List.nil_append, List.append_nil] at hj
        exact flatMap_encode_writeIds _ _ _ _ j hj

/-- The C7 classification lifted to a whole `renderCamera` call (a skipped
camera emits only a warning and changes nothing). -/
lemma renderCamera_uniform_classify (c : Camera) (s : EngineState) :
    (ubCount (Engine.renderCamera c s).1.uniformBuffer =
      ubCount s.uniformBuffer +
        (createBufferEvents (Engine.renderCamera c s).2).length) ∧
    (∀ e ∈ createBufferEvents (Engine.renderCamera c s).2, e.2 = 192) ∧
    (∀ b, s.uniformBuffer = some b →
      (Engine.renderCamera c s).1.uniformBuffer = some b) ∧
    (∀ j ∈ writeIds (Engine.renderCamera c s).2,
      ∃ b, (Engine.renderCamera c s).1.uniformBuffer = some b ∧ j = b.id) ∧
    isWDpairs (wdFlags (Engine.renderCamera c s).2) = true := by
  cases ht : c.target with
  | canvas canvasId =>
      cases hctx : s.canvasManager.getContext canvasId with
      | none =>
          rw [renderCamera_skip c s canvasId ht hctx]
          exact ⟨rfl, fun e he => absurd he (by simp [createBufferEvents]),
            fun b hb => hb,
            fun j hj => absurd hj (by simp [writeIds]), rfl⟩
      | some ctx =>
          simp only [Engine.renderCamera, ht, hctx]
          apply renderCameraResolved_uniform_classify
          · cases c.isPerspective <;> rfl
          · cases c.isPerspective <;> rfl
          · cases c.isPerspective <;> rfl
  | texture t w h =>
      simp only [Engine.renderCamera, ht]
      exact renderCameraResolved_uniform_classify c s preferredCanvasFormat []
        rfl rfl rfl

lemma obs_sceneUpdate (d : Rat) :
    createBufferEvents [GpuEvent.sceneUpdate d] = [] ∧
    writeIds [GpuEvent.sceneUpdate d] = [] ∧
    wdFlags [GpuEvent.sceneUpdate d] = [] :=
  ⟨rfl, rfl, rfl⟩

lemma obs_submit :
    createBufferEvents [GpuEvent.submit] = [] ∧
    writeIds [GpuEvent.submit] = [] ∧
    wdFlags [GpuEvent.submit] = [] :=
  ⟨rfl, rfl, rfl⟩

/-- The C7 classification lifted over the camera fold of one frame. -/
lemma renderCameras_uniform_classify (cs : List Camera) (s : EngineState) :
    (ubCount (Engine.renderCameras cs s).1.uniformBuffer =
      ubCount s.uniformBuffer +
        (createBufferEvents (Engine.renderCameras cs s).2).length) ∧
    (∀ e ∈ createBufferEvents (Engine.renderCameras cs s).2, e.2 = 192) ∧
    (∀ b, s.uniformBuffer = some b →
      (Engine.renderCameras cs s).1.uniformBuffer = some b) ∧
    (∀ j ∈ writeIds (Engine.renderCameras cs s).2,
      ∃ b, (Engine.renderCameras cs s).1.uniformBuffer = some b ∧ j = b.id) ∧
    isWDpairs (wdFlags (Engine.renderCameras cs s).2) = true := by
  induction cs generalizing s with
  | nil =>
      refine ⟨rfl, ?_, fun b hb => hb, ?_, rfl⟩
      · intro e he
        exact absurd he (List.not_mem_nil e)
      · intro j hj
        exact absurd hj (List.not_mem_nil j)
  | cons c cs ih =>
      obtain ⟨hc1, hc2, hc3, hc4, hc5⟩ := renderCamera_uniform_classify c s
      obtain ⟨hi1, hi2, hi3, hi4, hi5⟩ := ih (Engine.renderCamera c s).1
      simp only [Engine.renderCameras]
      refine ⟨?_, ?_, ?_, ?_, ?_⟩
      · rw [hi1, hc1, createBufferEvents_append, List.length_append]
        omega
      · intro e he
        rw [createBufferEvents_append] at he
        rcases List.mem_append.1 he with h0 | h0
        · exact hc2 e h0
        · exact hi2 e h0
      · intro b hb
        exact hi3 b (hc3 b hb)
      · intro j hj
        rw [writeIds_append] at hj
        rcases List.mem_append.1 hj with h0 | h0
        · obtain ⟨b, hmid, hid⟩ := hc4 j h0
          exact ⟨b, hi3 b hmid, hid⟩
        · exact hi4 j h0
      · rw [wdFlags_append]
        exact isWDpairs_append _ _ hc5 hi5

/-- The C7 classification over one whole frame. -/
lemma RenderLoop_uniform_classify (cams : List Camera) (t1 t2 : Rat)
    (s : EngineState) :
    (ubCount (Engine.RenderLoop cams t1 t2 s).1.uniformBuffer =
      ubCount s.uniformBuffer +
        (createBufferEvents (Engine.RenderLoop cams t1 t2 s).2.1).length) ∧
    (∀ e ∈ createBufferEvents (Engine.RenderLoop cams t1 t2 s).2.1,
      e.2 = 192) ∧
    (∀ b, s.uniformBuffer = some b →
      (Engine.RenderLoop cams t1 t2 s).1.uniformBuffer = some b) ∧
    (∀ j ∈ writeIds (Engine.RenderLoop cams t1 t2 s).2.1,
      ∃ b, (Engine.RenderLoop cams t1 t2 s).1.uniformBuffer = some b ∧
        j = b.id) ∧
    isWDpairs (wdFlags (Engine.RenderLoop cams t1 t2 s).2.1) = true := by
  obtain ⟨hr1, hr2, hr3, hr4, hr5⟩ := renderCameras_uniform_classify
    (SceneManager.getRenderCameras cams) (Engine.beginFrame t1 s).2
  have hub : (Engine.beginFrame t1 s).2.uniformBuffer = s.uniformBuffer := rfl
  simp only [Engine.RenderLoop, Engine.buildRenderStack, Engine.endFrame]
  refine ⟨?_, ?_, ?_, ?_, ?_⟩
  · rw [hr1, hub, createBufferEvents_append, createBufferEvents_append,
      (obs_sceneUpdate _).1, obs_submit.1]
    simp
  · intro e he
    rw [createBufferEvents_append, createBufferEvents_append,
      (obs_sceneUpdate _).1, obs_submit.1] at he
    simp only [List.nil_append, List.append_nil] at he
    exact hr2 e he
  · intro b hb
    exact hr3 b hb
  · intro j hj
    rw [writeIds_append, writeIds_append,
      (obs_sceneUpdate _).2.1, obs_submit.2.1] at hj
    simp only [List.nil_append, List.append_nil] at hj
    exact hr4 j hj
  · rw [wdFlags_append, wdFlags_append,
      (obs_sceneUpdate _).2.2, obs_submit.2.2]
    simp only [List.nil_append, List.append_nil]
    exact hr5

/-- The C7 classification over a whole run of frames. -/
lemma runFrames_uniform_classify (inputs : List FrameInput)
    (s : EngineState) :
    (ubCount (Engine.runFrames s inputs).1.uniformBuffer =
      ubCount s.uniformBuffer +
        (createBufferEvents (Engine.runFrames s inputs).2.1).length) ∧
    (∀ e ∈ createBufferEvents (Engine.runFrames s inputs).2.1, e.2 = 192) ∧
    (∀ b, s.uniformBuffer = some b →
      (Engine.runFrames s inputs).1.uniformBuffer = some b) ∧
    (∀ j ∈ writeIds (Engine.runFrames s inputs).2.1,
      ∃ b, (Engine.runFrames s inputs).1.uniformBuffer = some b ∧
        j = b.id) ∧
    isWDpairs (wdFlags (Engine.runFrames s inputs).2.1) = true := by
  induction inputs generalizing s with
  | nil =>
      refine ⟨rfl, ?_, fun b hb => hb, ?_, rfl⟩
      · intro e he
        exact absurd he (List.not_mem_nil e)
      · intro j hj
        exact absurd hj (List.not_mem_nil j)
  | cons f fs ih =>
      obtain ⟨hc1, hc2, hc3, hc4, hc5⟩ :=
        RenderLoop_uniform_classify f.cameras f.nowBegin f.nowUpdate s
      obtain ⟨hi1, hi2, hi3, hi4, hi5⟩ :=
        ih (Engine.RenderLoop f.cameras f.nowBegin f.nowUpdate s).1
      simp only [Engine.runFrames]
      refine ⟨?_, ?_, ?_, ?_, ?_⟩
      · rw [hi1, hc1, createBufferEvents_append, List.length_append]
        omega
      · intro e he
        rw [createBufferEvents_append] at he
        rcases List.mem_append.1 he with h0 | h0
        · exact hc2 e h0
        · exact hi2 e h0
      · intro b hb
        exact hi3 b (hc3 b hb)
      · intro j hj
        rw [writeIds_append] at hj
        rcases List.mem_append.1 hj with h0 | h0
        · obtain ⟨b, hmid, hid⟩ := hc4 j h0
          exact ⟨b, hi3 b hmid, hid⟩
        · exact hi4 j h0
      · rw [wdFlags_append]
        exact isWDpairs_append _ _ hc5 hi5

/-- C7: starting with no uniform buffer (`_uniformBuffer = null`, the
constructor state), an entire run of the orchestrator creates at most one
GPU buffer, every such creation has byte size 192 (`16 * 4 * 3`, three
4×4 float matrices), every uniform write of the whole run targets that
single surviving buffer object, and in the trace every write is
immediately followed by the draw it feeds before the next write. -/
theorem C7_single_uniform_buffer (s : EngineState) (inputs : List FrameInput)
    (h : s.uniformBuffer = none) :
    ((createBufferEvents (Engine.runFrames s inputs).2.1).length ≤ 1) ∧
    (∀ e ∈ createBufferEvents (Engine.runFrames s inputs).2.1, e.2 = 192) ∧
    (∀ j ∈ writeIds (Engine.runFrames s inputs).2.1,
      ∃ b, (Engine.runFrames s inputs).1.uniformBuffer = some b ∧
        j = b.id) ∧
    isWDpairs (wdFlags (Engine.runFrames s inputs).2.1) = true := by
  obtain ⟨h1, h2, _, h4, h5⟩ := runFrames_uniform_classify inputs s
  refine ⟨?_, h2, h4, h5⟩
  have hle := ubCount_le_one (Engine.runFrames s inputs).1.uniformBuffer
  rw [h, ubCount] at h1
  omega

/-- Witness for C7: a two-frame run over the example scene. -/
theorem C7_single_uniform_buffer_witness :
    ((createBufferEvents (Engine.runFrames exState
      [⟨1000, 1000, [exCamera, exCanvasCamera]⟩,
       ⟨2000, 2000, [exCamera]⟩]).2.1).length ≤ 1) ∧
    (∀ e ∈ createBufferEvents (Engine.runFrames exState
      [⟨1000, 1000, [exCamera, exCanvasCamera]⟩,
       ⟨2000, 2000, [exCamera]⟩]).2.1, e.2 = 192) ∧
    (∀ j ∈ writeIds (Engine.runFrames exState
      [⟨1000, 1000, [exCamera, exCanvasCamera]⟩,
       ⟨2000, 2000, [exCamera]⟩]).2.1,
      ∃ b, (Engine.runFrames exState
        [⟨1000, 1000, [exCamera, exCanvasCamera]⟩,
         ⟨2000, 2000, [exCamera]⟩]).1.uniformBuffer = some b ∧
        j = b.id) ∧
    isWDpairs (wdFlags (Engine.runFrames exState
      [⟨1000, 1000, [exCamera, exCanvasCamera]⟩,
       ⟨2000, 2000, [exCamera]⟩]).2.1) = true :=
  C7_single_uniform_buffer exState
    [⟨1000, 1000, [exCamera, exCanvasCamera]⟩, ⟨2000, 2000, [exCamera]⟩] rfl

end TinyWgpu
